import Mathlib

/-!
Shallow embedding of the core logic of `src/main.py` (a FastAPI SQL chat
agent), together with theorems checking the natural-language specification
against the code.

The embedded parts are:
* `stable_session_id` (main.py lines 41-52): trim, null/empty checks, and the
  deterministic UUIDv5 derivation under the fixed namespace
  `12345678-1234-5678-1234-567812345678`.  The UUIDv5 algorithm (namespace
  bytes ++ UTF-8 name, SHA-1, version/variant bits, hex formatting) follows
  RFC 4122 exactly as Python's `uuid.uuid5` implements it.
* `SQLResultHandler` (main.py lines 105-122): the callback observer that
  correlates tool start/end events by run id and captures the latest output
  of the `sql_db_query` tool.
* `chat_endpoint` (main.py lines 194-211): the request orchestration with its
  try/except boundary mapping any pipeline exception to an HTTP 500 whose
  detail is the exception's message.
-/

/-- Python `str.isspace` / `str.strip` whitespace set: ASCII whitespace,
control characters 0x1c-0x1f, 0x85, and the Unicode space characters. -/
def isPySpace (c : Char) : Bool :=
  c.toNat ∈ [9, 10, 11, 12, 13, 28, 29, 30, 31, 32, 133, 160, 5760,
    8192, 8193, 8194, 8195, 8196, 8197, 8198, 8199, 8200, 8201, 8202,
    8232, 8233, 8239, 8287, 12288]

/-- Python `str.strip()`: remove leading and trailing whitespace characters. -/
def pyStrip (s : String) : String :=
  ⟨((s.data.dropWhile isPySpace).reverse.dropWhile isPySpace).reverse⟩

/-- Standard UTF-8 encoding of one character, as Python `str.encode` uses
byte by byte. -/
def utf8Char (c : Char) : List Nat :=
  let n := c.toNat
  if n < 0x80 then [n]
  else if n < 0x800 then [0xC0 ||| (n >>> 6), 0x80 ||| (n &&& 0x3F)]
  else if n < 0x10000 then
    [0xE0 ||| (n >>> 12), 0x80 ||| ((n >>> 6) &&& 0x3F), 0x80 ||| (n &&& 0x3F)]
  else
    [0xF0 ||| (n >>> 18), 0x80 ||| ((n >>> 12) &&& 0x3F),
     0x80 ||| ((n >>> 6) &&& 0x3F), 0x80 ||| (n &&& 0x3F)]

/-- UTF-8 encoding of a string as a byte list (Python `name.encode('utf-8')`). -/
def utf8Encode (s : String) : List Nat :=
  (s.data.map utf8Char).flatten

/-- Reduction modulo 2^32, for 32-bit modular arithmetic in SHA-1. -/
def w32 (n : Nat) : Nat := n % 4294967296

/-- 32-bit left rotation of a word already reduced mod 2^32. -/
def rotl (x k : Nat) : Nat :=
  w32 ((x <<< k) ||| (x >>> (32 - k)))

/-- SHA-1 padding: append 0x80, zero bytes up to 56 mod 64, then the 8-byte
big-endian bit length. -/
def sha1pad (msg : List Nat) : List Nat :=
  let L := msg.length
  msg ++ [0x80] ++ List.replicate ((119 - L % 64) % 64) 0 ++
    ((List.range 8).map fun j => ((8 * L) >>> (8 * (7 - j))) &&& 0xFF)

/-- Group a byte list into big-endian 32-bit words. -/
def bytesToWords : List Nat → List Nat
  | a :: b :: c :: d :: rest =>
      (((a * 256 + b) * 256 + c) * 256 + d) :: bytesToWords rest
  | _ => []

/-- Extend the 16-word message schedule, one word per step of fuel, by the
SHA-1 recurrence W[i] = rotl1 (W[i-3] xor W[i-8] xor W[i-14] xor W[i-16]). -/
def extendW (ws : Array Nat) : Nat → Array Nat
  | 0 => ws
  | fuel + 1 =>
      let n := ws.size
      extendW (ws.push (rotl ((ws.getD (n - 3) 0) ^^^ (ws.getD (n - 8) 0) ^^^
        (ws.getD (n - 14) 0) ^^^ (ws.getD (n - 16) 0)) 1)) fuel

/-- SHA-1 round function, by round index. -/
def sha1f (i b c d : Nat) : Nat :=
  if i < 20 then (b &&& c) ||| ((b ^^^ 0xFFFFFFFF) &&& d)
  else if i < 40 then b ^^^ c ^^^ d
  else if i < 60 then (b &&& c) ||| (b &&& d) ||| (c &&& d)
  else b ^^^ c ^^^ d

/-- SHA-1 round constant, by round index. -/
def sha1k (i : Nat) : Nat :=
  if i < 20 then 0x5A827999
  else if i < 40 then 0x6ED9EBA1
  else if i < 60 then 0x8F1BBCDC
  else 0xCA62C1D6

/-- One SHA-1 compression of a 64-byte block into the running state. -/
def sha1Block (h : Nat × Nat × Nat × Nat × Nat) (block : List Nat) :
    Nat × Nat × Nat × Nat × Nat :=
  let ws := extendW (Array.mk (bytesToWords block)) 64
  let st := (List.range 80).foldl
    (fun (st : Nat × Nat × Nat × Nat × Nat) i =>
      let (a, b, c, d, e) := st
      let t := w32 (rotl a 5 + sha1f i b c d + e + sha1k i + ws.getD i 0)
      (t, a, rotl b 30, c, d)) h
  let (a, b, c, d, e) := st
  let (h0, h1, h2, h3, h4) := h
  (w32 (h0 + a), w32 (h1 + b), w32 (h2 + c), w32 (h3 + d), w32 (h4 + e))

/-- Split a byte list into 64-byte blocks; the fuel is an upper bound on the
number of blocks, so recursion stays structural (and kernel-reducible). -/
def toBlocksFuel : Nat → List Nat → List (List Nat)
  | 0, _ => []
  | _, [] => []
  | fuel + 1, l => l.take 64 :: toBlocksFuel fuel (l.drop 64)

/-- Split a byte list into 64-byte blocks. -/
def toBlocks (l : List Nat) : List (List Nat) :=
  toBlocksFuel (l.length + 1) l

/-- SHA-1 digest of a byte list, as a 20-byte list. -/
def sha1 (msg : List Nat) : List Nat :=
  let blocks := toBlocks (sha1pad msg)
  let st := blocks.foldl sha1Block
    (0x67452301, 0xEFCDAB89, 0x98BADCFE, 0x10325476, 0xC3D2E1F0)
  let (h0, h1, h2, h3, h4) := st
  [h0, h1, h2, h3, h4].foldr
    (fun h acc =>
      ((h >>> 24) &&& 0xFF) :: ((h >>> 16) &&& 0xFF) ::
        ((h >>> 8) &&& 0xFF) :: (h &&& 0xFF) :: acc) []

/-- Lowercase hexadecimal digit for a value below 16. -/
def hexDigit (n : Nat) : Char :=
  if n < 10 then Char.ofNat (48 + n) else Char.ofNat (87 + n)

/-- Lowercase hex rendering of a byte list. -/
def bytesToHex (bs : List Nat) : String :=
  ⟨(bs.map fun b => [hexDigit (b / 16), hexDigit (b % 16)]).flatten⟩

/-- Render 16 UUID bytes in the canonical 8-4-4-4-12 dashed form, as
Python `str(uuid.UUID(...))` does. -/
def uuidFormat (bytes : List Nat) : String :=
  bytesToHex (bytes.take 4) ++ "-" ++
  bytesToHex ((bytes.drop 4).take 2) ++ "-" ++
  bytesToHex ((bytes.drop 6).take 2) ++ "-" ++
  bytesToHex ((bytes.drop 8).take 2) ++ "-" ++
  bytesToHex (bytes.drop 10)

/-- RFC 4122 name-based UUID version 5: SHA-1 of namespace bytes followed by
the UTF-8 name, truncated to 16 bytes, with the version nibble set to 5 and
the variant bits set to 10; exactly Python's `uuid.uuid5`. -/
def uuid5 (namespaceBytes : List Nat) (name : String) : String :=
  let digest := (sha1 (namespaceBytes ++ utf8Encode name)).take 16
  let b6 := ((digest.getD 6 0) &&& 0x0F) ||| 0x50
  let b8 := ((digest.getD 8 0) &&& 0x3F) ||| 0x80
  uuidFormat ((digest.set 6 b6).set 8 b8)

/-- The fixed namespace constant of main.py line 39:
`uuid.UUID("12345678-1234-5678-1234-567812345678")`, as its 16 bytes. -/
def UUID_NAMESPACE : List Nat :=
  [0x12, 0x34, 0x56, 0x78, 0x12, 0x34, 0x56, 0x78,
   0x12, 0x34, 0x56, 0x78, 0x12, 0x34, 0x56, 0x78]

/-- The `stable_session_id` function of main.py lines 41-52.  `none` models
Python `None`; raising `ValueError(msg)` is modelled as `Except.error msg`. -/
def stable_session_id : Option String → Except String String
  | none => Except.error "user_id cannot be None"
  | some user_id =>
    let user_id := pyStrip user_id
    if user_id = "" then Except.error "user_id cannot be empty"
    else Except.ok (uuid5 UUID_NAMESPACE user_id)

deriving instance DecidableEq for Except

set_option maxRecDepth 100000

/-- A tool run identifier.  LangChain passes `run_id` through `kwargs.get`,
which yields `None` when absent, so a run id in the model is an
`Option Nat`. -/
abbrev RunId := Option Nat

/-- A tool lifecycle event delivered to a callback handler during one agent
execution: `on_tool_start` receives the tool's name (extracted from the
`serialized` dict) and the run id; `on_tool_end` receives the tool's output
and the run id. -/
inductive ToolEvent where
  | toolStart (toolName : String) (runId : RunId)
  | toolEnd (output : String) (runId : RunId)
deriving DecidableEq

/-- The `SQLResultHandler` callback state of main.py lines 105-122:
`latest_sql_result` starts as `None`, `sql_run_ids` as an empty set. -/
structure SQLResultHandler where
  latest_sql_result : Option String
  sql_run_ids : Finset RunId
deriving DecidableEq

/-- `SQLResultHandler.__init__` (main.py lines 106-108): no captured result,
empty pending set. -/
def SQLResultHandler.init : SQLResultHandler :=
  { latest_sql_result := none, sql_run_ids := ∅ }

/-- `SQLResultHandler.on_tool_start` (main.py lines 110-113): when the tool
named in the event is `sql_db_query`, add the event's run id to the pending
set; otherwise do nothing. -/
def SQLResultHandler.on_tool_start (h : SQLResultHandler) (toolName : String)
    (runId : RunId) : SQLResultHandler :=
  if toolName = "sql_db_query" then
    { h with sql_run_ids := insert runId h.sql_run_ids }
  else h

/-- `SQLResultHandler.on_tool_end` (main.py lines 115-119): when the event's
run id is in the pending set, store the output as the latest result and
discard the run id; otherwise do nothing. -/
def SQLResultHandler.on_tool_end (h : SQLResultHandler) (output : String)
    (runId : RunId) : SQLResultHandler :=
  if runId ∈ h.sql_run_ids then
    { latest_sql_result := some output, sql_run_ids := h.sql_run_ids.erase runId }
  else h

/-- `SQLResultHandler.get_latest_result` (main.py lines 121-122). -/
def SQLResultHandler.get_latest_result (h : SQLResultHandler) : Option String :=
  h.latest_sql_result

/-- Dispatch one lifecycle event to the handler's callback methods. -/
def SQLResultHandler.step (h : SQLResultHandler) : ToolEvent → SQLResultHandler
  | ToolEvent.toolStart toolName runId => h.on_tool_start toolName runId
  | ToolEvent.toolEnd output runId => h.on_tool_end output runId

/-- Deliver a sequence of lifecycle events to the handler, in order, as the
agent framework does during `agent.ainvoke` with the handler installed as a
callback. -/
def processEvents (h : SQLResultHandler) (evs : List ToolEvent) : SQLResultHandler :=
  evs.foldl SQLResultHandler.step h

/-- The request body schema `ChatRequest` of main.py lines 186-188: two
required string fields. -/
structure ChatRequest where
  message : String
  user_id : String
deriving DecidableEq

/-- The response schema `ChatResponse` of main.py lines 190-192. -/
structure ChatResponse where
  reply : String
  raw_sql_result : Option String
deriving DecidableEq

/-- Outcome of one request at the HTTP boundary: a 2xx `ChatResponse`, or an
`HTTPException(status_code, detail)`. -/
inductive HTTPResult where
  | ok (resp : ChatResponse)
  | httpError (status : Nat) (detail : String)
deriving DecidableEq

/-- Pydantic body validation for `ChatRequest` (main.py lines 186-188): each
declared field is required and must be a string; the model declares no
emptiness constraint, so any string value — including the empty string — is
accepted. `none` models an absent field. -/
def validateChatRequest (message : Option String) (user_id : Option String) :
    Except String ChatRequest :=
  match message, user_id with
  | none, _ => Except.error "message: field required"
  | _, none => Except.error "user_id: field required"
  | some m, some u => Except.ok { message := m, user_id := u }

/-- An agent execution, abstracted at its interface: given the derived
session id (used to load the conversation memory) and the request message,
it either raises (an exception message) or returns the agent's final output
together with the tool lifecycle events it fired at the installed callback
handler.  The LangChain agent, LLM and database are external collaborators
behind this function. -/
def AgentRun : Type := String → String → Except String (String × List ToolEvent)

/-- The `chat_endpoint` handler of main.py lines 194-211.  Inside the `try`
block it builds a fresh `SQLResultHandler`, creates the agent (which first
derives the stable session id from `request.user_id`, main.py lines 150-180),
invokes the agent with the handler installed as callback, and returns
`ChatResponse(reply=response["output"],
raw_sql_result=sql_handler.get_latest_result())`; any exception anywhere in
that pipeline is caught and re-raised as `HTTPException(500, str(e))`. -/
def chat_endpoint (agent : AgentRun) (request : ChatRequest) : HTTPResult :=
  match stable_session_id (some request.user_id) with
  | Except.error e => HTTPResult.httpError 500 e
  | Except.ok sessionId =>
    match agent sessionId request.message with
    | Except.error e => HTTPResult.httpError 500 e
    | Except.ok (output, evs) =>
      HTTPResult.ok
        { reply := output,
          raw_sql_result :=
            (processEvents SQLResultHandler.init evs).get_latest_result }

/-! ### Helper lemmas about the callback observer -/

theorem processEvents_cons (h : SQLResultHandler) (e : ToolEvent)
    (evs : List ToolEvent) :
    processEvents h (e :: evs) = processEvents (h.step e) evs := rfl

theorem on_tool_start_latest (h : SQLResultHandler) (toolName : String)
    (runId : RunId) :
    (h.on_tool_start toolName runId).latest_sql_result = h.latest_sql_result := by
  unfold SQLResultHandler.on_tool_start
  split <;> rfl

/-- Every run id pending after a sequence of events was either pending at the
start or put there by a tool-start event of the `sql_db_query` tool. -/
theorem processEvents_run_ids_provenance (evs : List ToolEvent)
    (h : SQLResultHandler) (rid : RunId)
    (hmem : rid ∈ (processEvents h evs).sql_run_ids) :
    rid ∈ h.sql_run_ids ∨ ToolEvent.toolStart "sql_db_query" rid ∈ evs := by
  induction evs generalizing h with
  | nil => exact Or.inl hmem
  | cons e evs ih =>
    rw [processEvents_cons] at hmem
    rcases ih (h.step e) hmem with hm | hin
    · cases e with
      | toolStart name r =>
        by_cases hname : name = "sql_db_query"
        · simp only [SQLResultHandler.step, SQLResultHandler.on_tool_start,
            if_pos hname] at hm
          rcases Finset.mem_insert.mp hm with rfl | hm
          · exact Or.inr (by rw [hname]; exact List.mem_cons_self _ _)
          · exact Or.inl hm
        · simp only [SQLResultHandler.step, SQLResultHandler.on_tool_start,
            if_neg hname] at hm
          exact Or.inl hm
      | toolEnd o r =>
        by_cases hr : r ∈ h.sql_run_ids
        · simp only [SQLResultHandler.step, SQLResultHandler.on_tool_end,
            if_pos hr] at hm
          exact Or.inl (Finset.mem_of_mem_erase hm)
        · simp only [SQLResultHandler.step, SQLResultHandler.on_tool_end,
            if_neg hr] at hm
          exact Or.inl hm
    · exact Or.inr (List.mem_cons_of_mem _ hin)

/-- If a sequence of events leaves some output captured, either it was
already captured at the start, or some tool-end event in the sequence
carried that output under a run id that was pending when it arrived. -/
theorem processEvents_latest_provenance (evs : List ToolEvent)
    (h : SQLResultHandler) (out : String)
    (hcap : (processEvents h evs).latest_sql_result = some out) :
    h.latest_sql_result = some out ∨
      ∃ p rid rest, evs = p ++ ToolEvent.toolEnd out rid :: rest ∧
        rid ∈ (processEvents h p).sql_run_ids := by
  induction evs generalizing h with
  | nil => exact Or.inl hcap
  | cons e evs ih =>
    rw [processEvents_cons] at hcap
    rcases ih (h.step e) hcap with hl | ⟨p, rid, rest, heq, hpend⟩
    · cases e with
      | toolStart name r =>
        rw [SQLResultHandler.step, on_tool_start_latest] at hl
        exact Or.inl hl
      | toolEnd o r =>
        by_cases hr : r ∈ h.sql_run_ids
        · simp only [SQLResultHandler.step, SQLResultHandler.on_tool_end,
            if_pos hr] at hl
          obtain rfl : o = out := Option.some.inj hl
          exact Or.inr ⟨[], r, evs, rfl, by simpa [processEvents] using hr⟩
        · simp only [SQLResultHandler.step, SQLResultHandler.on_tool_end,
            if_neg hr] at hl
          exact Or.inl hl
    · exact Or.inr ⟨e :: p, rid, rest, by rw [heq]; rfl,
        by rw [processEvents_cons]; exact hpend⟩

/-- A fresh handler plus the events of one agent execution: if an output is
captured, it came from a tool-end event whose run id was pending at that
moment and was recorded by an earlier `sql_db_query` tool-start event. -/
theorem processEvents_capture_from_query_tool (evs : List ToolEvent)
    (out : String)
    (hcap : (processEvents SQLResultHandler.init evs).latest_sql_result =
      some out) :
    ∃ p rid rest, evs = p ++ ToolEvent.toolEnd out rid :: rest ∧
      rid ∈ (processEvents SQLResultHandler.init p).sql_run_ids ∧
      ToolEvent.toolStart "sql_db_query" rid ∈ p := by
  rcases processEvents_latest_provenance evs SQLResultHandler.init out hcap with
    hl | ⟨p, rid, rest, heq, hpend⟩
  · simp [SQLResultHandler.init] at hl
  · refine ⟨p, rid, rest, heq, hpend, ?_⟩
    rcases processEvents_run_ids_provenance p SQLResultHandler.init rid hpend with
      hm | hs
    · simp [SQLResultHandler.init] at hm
    · exact hs

/-! ### Claim theorems -/

/-- C1: for every two user_id strings whose whitespace-trimmed forms are
equal and non-empty, `stable_session_id` returns the identical SessionId
string; it is a pure function (same input, same output), and the output is
exactly the UUIDv5 of the trimmed input under the fixed namespace. -/
theorem stable_session_id_trim_equiv (a b : String)
    (htrim : pyStrip a = pyStrip b) (hne : pyStrip a ≠ "") :
    stable_session_id (some a) = stable_session_id (some b) ∧
    stable_session_id (some a) =
      Except.ok (uuid5 UUID_NAMESPACE (pyStrip a)) := by
  have hb : pyStrip b ≠ "" := htrim ▸ hne
  simp [stable_session_id, htrim, hb]

/-- C1 witness: derive(" Qun Li ") = derive("Qun Li"), both defined. -/
theorem stable_session_id_trim_equiv_witness :
    stable_session_id (some " Qun Li ") = stable_session_id (some "Qun Li") ∧
    stable_session_id (some " Qun Li ") =
      Except.ok (uuid5 UUID_NAMESPACE (pyStrip " Qun Li ")) :=
  stable_session_id_trim_equiv " Qun Li " "Qun Li" (by decide) (by decide)

/-- C2: whatever event sequence one agent execution delivers to a fresh
handler, the captured latest result is only ever the output of a tool-end
event whose run id was previously recorded by a tool-start event of the
`sql_db_query` tool and was still pending (not yet discarded) when the end
event arrived; so no other tool's output is surfaced. -/
theorem sql_capture_only_from_query_tool (evs : List ToolEvent) (out : String)
    (hcap : (processEvents SQLResultHandler.init evs).latest_sql_result =
      some out) :
    ∃ p rid rest, evs = p ++ ToolEvent.toolEnd out rid :: rest ∧
      rid ∈ (processEvents SQLResultHandler.init p).sql_run_ids ∧
      ToolEvent.toolStart "sql_db_query" rid ∈ p :=
  processEvents_capture_from_query_tool evs out hcap

/-- C2 witness: a concrete trace capturing "5 rows". -/
theorem sql_capture_only_from_query_tool_witness :
    ∃ p rid rest,
      [ToolEvent.toolStart "sql_db_query" (some 1),
       ToolEvent.toolEnd "5 rows" (some 1)] =
        p ++ ToolEvent.toolEnd "5 rows" rid :: rest ∧
      rid ∈ (processEvents SQLResultHandler.init p).sql_run_ids ∧
      ToolEvent.toolStart "sql_db_query" rid ∈ p :=
  sql_capture_only_from_query_tool
    [ToolEvent.toolStart "sql_db_query" (some 1),
     ToolEvent.toolEnd "5 rows" (some 1)] "5 rows" (by decide)

/-- C3: start query-tool run r1, end r1 with "5 rows", then start and end an
unrelated (non-query-execution) tool run r2 — the handler's captured result
is "5 rows", not influenced by r2.  This holds for every r1, r2 and every
output of the unrelated tool. -/
theorem capture_scenario_unaffected_by_other_tool (r1 r2 : RunId)
    (toolName out2 : String) (hname : toolName ≠ "sql_db_query") :
    (processEvents SQLResultHandler.init
      [ToolEvent.toolStart "sql_db_query" r1,
       ToolEvent.toolEnd "5 rows" r1,
       ToolEvent.toolStart toolName r2,
       ToolEvent.toolEnd out2 r2]).get_latest_result = some "5 rows" := by
  simp [processEvents, SQLResultHandler.step, SQLResultHandler.init,
    SQLResultHandler.on_tool_start, SQLResultHandler.on_tool_end,
    SQLResultHandler.get_latest_result, hname, Finset.mem_erase,
    Finset.mem_insert]

/-- C3 witness: the scenario at concrete run ids and a schema-lookup tool. -/
theorem capture_scenario_unaffected_by_other_tool_witness :
    (processEvents SQLResultHandler.init
      [ToolEvent.toolStart "sql_db_query" (some 1),
       ToolEvent.toolEnd "5 rows" (some 1),
       ToolEvent.toolStart "sql_db_schema" (some 2),
       ToolEvent.toolEnd "schema text" (some 2)]).get_latest_result =
    some "5 rows" :=
  capture_scenario_unaffected_by_other_tool (some 1) (some 2)
    "sql_db_schema" "schema text" (by decide)

/-- C4: `stable_session_id` on null, on the empty string and on a
whitespace-only string each fail with an error (Python `ValueError`, the
spec's InvalidArgument) whose message names the violated constraint, the
null message differing from the empty-after-trim message; no SessionId is
returned. -/
theorem stable_session_id_rejects_null_and_empty :
    stable_session_id none = Except.error "user_id cannot be None" ∧
    stable_session_id (some "") = Except.error "user_id cannot be empty" ∧
    stable_session_id (some "   ") = Except.error "user_id cannot be empty" ∧
    "user_id cannot be None" ≠ "user_id cannot be empty" := by
  refine ⟨rfl, rfl, by decide, by decide⟩

/-- C5: an exception anywhere in the pipeline — session-id derivation or
agent execution (which covers store connection and the agent's own run) —
is caught at the handler boundary and surfaced as HTTP 500 whose detail is
the exception's textual message; nothing else is returned. -/
theorem chat_endpoint_maps_failures_to_500 :
    (∀ (agent : AgentRun) (req : ChatRequest) (e : String),
      stable_session_id (some req.user_id) = Except.error e →
      chat_endpoint agent req = HTTPResult.httpError 500 e) ∧
    (∀ (agent : AgentRun) (req : ChatRequest) (sid e : String),
      stable_session_id (some req.user_id) = Except.ok sid →
      agent sid req.message = Except.error e →
      chat_endpoint agent req = HTTPResult.httpError 500 e) := by
  constructor
  · intro agent req e he
    simp [chat_endpoint, he]
  · intro agent req sid e hs ha
    simp [chat_endpoint, hs, ha]

/-- C5 witness: a whitespace-only user_id fails derivation and surfaces as
500 with the ValueError text; an agent that raises "boom" surfaces as 500
with detail "boom". -/
theorem chat_endpoint_maps_failures_to_500_witness :
    chat_endpoint (fun _ _ => Except.error "boom")
      { message := "hi", user_id := "  " } =
      HTTPResult.httpError 500 "user_id cannot be empty" ∧
    chat_endpoint (fun _ _ => Except.error "boom")
      { message := "hi", user_id := "alice" } =
      HTTPResult.httpError 500 "boom" :=
  ⟨chat_endpoint_maps_failures_to_500.1 (fun _ _ => Except.error "boom")
      { message := "hi", user_id := "  " } "user_id cannot be empty" (by decide),
   chat_endpoint_maps_failures_to_500.2 (fun _ _ => Except.error "boom")
      { message := "hi", user_id := "alice" }
      "9b8af889-593a-52f2-90ac-37effeecf22b" "boom" (by decide) rfl⟩

/-- C6: a tool-end event whose run id is pending stores that output as the
latest captured result and removes the id from the pending set, so a second
tool-end event with the same run id leaves the captured result unchanged. -/
theorem on_tool_end_captures_once (h : SQLResultHandler) (out : String)
    (rid : RunId) (hmem : rid ∈ h.sql_run_ids) :
    (h.on_tool_end out rid).latest_sql_result = some out ∧
    rid ∉ (h.on_tool_end out rid).sql_run_ids ∧
    ∀ out2, ((h.on_tool_end out rid).on_tool_end out2 rid).latest_sql_result =
      some out := by
  refine ⟨?_, ?_, ?_⟩
  · simp [SQLResultHandler.on_tool_end, hmem]
  · simp [SQLResultHandler.on_tool_end, hmem, Finset.not_mem_erase]
  · intro out2
    simp [SQLResultHandler.on_tool_end, hmem, Finset.not_mem_erase]

/-- C6 witness: concrete handler with pending run id 1. -/
theorem on_tool_end_captures_once_witness :
    ((⟨none, {some 1}⟩ : SQLResultHandler).on_tool_end "5 rows"
        (some 1)).latest_sql_result = some "5 rows" ∧
    some 1 ∉ ((⟨none, {some 1}⟩ : SQLResultHandler).on_tool_end "5 rows"
        (some 1)).sql_run_ids ∧
    ∀ out2, (((⟨none, {some 1}⟩ : SQLResultHandler).on_tool_end "5 rows"
        (some 1)).on_tool_end out2 (some 1)).latest_sql_result =
      some "5 rows" :=
  on_tool_end_captures_once ⟨none, {some 1}⟩ "5 rows" (some 1) (by decide)

/-- C7: a freshly constructed handler holds no captured result and an empty
pending set; and when the agent execution's events contain no completed
query-tool run (no tool-end whose run id was started by the `sql_db_query`
tool), the endpoint's response carries raw_sql_result = none. -/
theorem result_capture_starts_empty_and_defaults_null :
    SQLResultHandler.init.latest_sql_result = none ∧
    SQLResultHandler.init.sql_run_ids = ∅ ∧
    ∀ (agent : AgentRun) (req : ChatRequest) (sid output : String)
      (evs : List ToolEvent),
      stable_session_id (some req.user_id) = Except.ok sid →
      agent sid req.message = Except.ok (output, evs) →
      (∀ out rid, ToolEvent.toolEnd out rid ∈ evs →
        ToolEvent.toolStart "sql_db_query" rid ∉ evs) →
      chat_endpoint agent req =
        HTTPResult.ok { reply := output, raw_sql_result := none } := by
  refine ⟨rfl, rfl, ?_⟩
  intro agent req sid output evs hsid hagent hnone
  have hlatest : (processEvents SQLResultHandler.init evs).latest_sql_result =
      none := by
    cases hcap : (processEvents SQLResultHandler.init evs).latest_sql_result with
    | none => rfl
    | some out =>
      exfalso
      rcases processEvents_capture_from_query_tool evs out hcap with
        ⟨p, rid, rest, heq, _, hstart⟩
      have hend : ToolEvent.toolEnd out rid ∈ evs := by
        rw [heq]
        exact List.mem_append_right _ (List.mem_cons_self _ _)
      have hstartevs : ToolEvent.toolStart "sql_db_query" rid ∈ evs := by
        rw [heq]
        exact List.mem_append_left _ hstart
      exact hnone out rid hend hstartevs
  simp [chat_endpoint, hsid, hagent, SQLResultHandler.get_latest_result, hlatest]

/-- C7 witness: an execution that only runs a schema-lookup tool yields a
response with raw_sql_result = none. -/
theorem result_capture_starts_empty_and_defaults_null_witness :
    chat_endpoint
      (fun _ _ => Except.ok ("no query needed",
        [ToolEvent.toolStart "sql_db_schema" (some 1),
         ToolEvent.toolEnd "tables listed" (some 1)]))
      { message := "hi", user_id := "alice" } =
      HTTPResult.ok { reply := "no query needed", raw_sql_result := none } :=
  result_capture_starts_empty_and_defaults_null.2.2
    (fun _ _ => Except.ok ("no query needed",
      [ToolEvent.toolStart "sql_db_schema" (some 1),
       ToolEvent.toolEnd "tables listed" (some 1)]))
    { message := "hi", user_id := "alice" }
    "9b8af889-593a-52f2-90ac-37effeecf22b" "no query needed"
    [ToolEvent.toolStart "sql_db_schema" (some 1),
     ToolEvent.toolEnd "tables listed" (some 1)]
    (by decide) rfl
    (by
      intro out rid hend hstart
      rcases List.mem_cons.mp hstart with h | h
      · injection h with h1 h2
        exact absurd h1 (by decide)
      · rcases List.mem_cons.mp h with h | h
        · exact ToolEvent.noConfusion h
        · exact List.not_mem_nil _ h)

/-- C8 counterexample: the handler does not reject an empty message — body
validation accepts the empty string for both fields' type `str`, and an
empty message drives an agent execution whose output is returned with
HTTP 200. -/
theorem chat_request_empty_message_not_rejected :
    validateChatRequest (some "") (some "alice") =
      Except.ok { message := "", user_id := "alice" } ∧
    chat_endpoint (fun _ _ => Except.ok ("agent ran", []))
      { message := "", user_id := "alice" } =
      HTTPResult.ok { reply := "agent ran", raw_sql_result := none } := by
  exact ⟨rfl, by decide⟩

/-- C8 amended: body validation only requires `message` and `user_id` to be
present strings (missing fields are rejected, all string values accepted,
empty or not); an empty user_id passes body validation and fails later,
inside the pipeline, at session-id derivation (surfaced as HTTP 500); an
empty message is accepted and drives an agent execution whose result is
returned. -/
theorem chat_request_validation_amended :
    (∀ u, validateChatRequest none u = Except.error "message: field required") ∧
    (∀ m, validateChatRequest (some m) none =
      Except.error "user_id: field required") ∧
    (∀ m u, validateChatRequest (some m) (some u) =
      Except.ok { message := m, user_id := u }) ∧
    (∀ (agent : AgentRun) (m : String),
      chat_endpoint agent { message := m, user_id := "" } =
        HTTPResult.httpError 500 "user_id cannot be empty") ∧
    (∀ (agent : AgentRun) (u sid output : String) (evs : List ToolEvent),
      stable_session_id (some u) = Except.ok sid →
      agent sid "" = Except.ok (output, evs) →
      chat_endpoint agent { message := "", user_id := u } =
        HTTPResult.ok
          ⟨output, (processEvents SQLResultHandler.init evs).get_latest_result⟩) := by
  refine ⟨?_, ?_, ?_, ?_, ?_⟩
  · intro u
    cases u <;> rfl
  · intro m
    rfl
  · intro m u
    rfl
  · intro agent m
    rfl
  · intro agent u sid output evs hs ha
    simp [chat_endpoint, hs, ha]

/-- C8 amended witness: an empty message with user_id "alice" reaches the
agent; the query tool's captured output is surfaced. -/
theorem chat_request_validation_amended_witness :
    chat_endpoint
      (fun _ _ => Except.ok ("ran",
        [ToolEvent.toolStart "sql_db_query" (some 1),
         ToolEvent.toolEnd "5 rows" (some 1)]))
      { message := "", user_id := "alice" } =
      HTTPResult.ok
        ⟨"ran", (processEvents SQLResultHandler.init
          [ToolEvent.toolStart "sql_db_query" (some 1),
           ToolEvent.toolEnd "5 rows" (some 1)]).get_latest_result⟩ :=
  chat_request_validation_amended.2.2.2.2
    (fun _ _ => Except.ok ("ran",
      [ToolEvent.toolStart "sql_db_query" (some 1),
       ToolEvent.toolEnd "5 rows" (some 1)]))
    "alice" "9b8af889-593a-52f2-90ac-37effeecf22b" "ran"
    [ToolEvent.toolStart "sql_db_query" (some 1),
     ToolEvent.toolEnd "5 rows" (some 1)]
    (by decide) rfl

/-- C10: a tool-end event whose run id is not pending leaves the handler
state entirely unchanged — both the captured result and the pending set. -/
theorem on_tool_end_frame (h : SQLResultHandler) (out : String) (rid : RunId)
    (hmem : rid ∉ h.sql_run_ids) : h.on_tool_end out rid = h := by
  simp [SQLResultHandler.on_tool_end, hmem]

/-- C10 witness: a tool-end on the fresh handler changes nothing. -/
theorem on_tool_end_frame_witness :
    SQLResultHandler.init.on_tool_end "ignored" (some 5) =
      SQLResultHandler.init :=
  on_tool_end_frame SQLResultHandler.init "ignored" (some 5) (by decide)
